import Mathlib

/-!
Verification of the TV→Kite ATM options bridge (`src/main.py`) against its
natural-language specification.

The Python source is shallowly embedded below.  Conventions:
* floats (prices, wall-clock seconds) are modelled as `ℚ`;
* Python ints are `ℤ`;
* `datetime.date` values are modelled by the `Date` structure below, ordered
  lexicographically via the numeric encoding `toN`;
* a fallible broker call is passed in as an `Except` value;
* the FastAPI request handler `webhook` is modelled as a pure function of an
  environment (current time, today's date, the loaded instrument snapshot, the
  broker's net position list, the order id the broker would return) together
  with the parsed payload and the current `_seen` key set.
-/

set_option autoImplicit false

namespace Bridge

/-- Calendar date (models Python `datetime.date`).  Ordered by the numeric
encoding `toN`, which is the usual lexicographic date order for valid dates. -/
structure Date where
  y : ℕ
  m : ℕ
  d : ℕ
deriving DecidableEq, Repr

/-- Numeric encoding giving the date order. -/
def Date.toN (a : Date) : ℕ := a.y * 10000 + a.m * 100 + a.d

instance : LE Date := ⟨fun a b => a.toN ≤ b.toN⟩
instance : LT Date := ⟨fun a b => a.toN < b.toN⟩

instance (a b : Date) : Decidable (a ≤ b) := inferInstanceAs (Decidable (a.toN ≤ b.toN))
instance (a b : Date) : Decidable (a < b) := inferInstanceAs (Decidable (a.toN < b.toN))

theorem Date.le_def {a b : Date} : a ≤ b ↔ a.toN ≤ b.toN := Iff.rfl
theorem Date.lt_def {a b : Date} : a < b ↔ a.toN < b.toN := Iff.rfl

theorem Date.le_refl (a : Date) : a ≤ a := Nat.le_refl _

theorem Date.le_trans {a b c : Date} (h1 : a ≤ b) (h2 : b ≤ c) : a ≤ c :=
  Nat.le_trans h1 h2

theorem Date.lt_of_not_le {a b : Date} (h : ¬ b ≤ a) : a < b :=
  Nat.lt_of_not_le h

instance : IsTotal Date (· ≤ ·) := ⟨fun a b => Nat.le_total a.toN b.toN⟩
instance : IsTrans Date (· ≤ ·) := ⟨fun _ _ _ => Date.le_trans⟩

/-- Left-pad a natural number with zeros to the given width, as Python's
`date.isoformat` does for each component. -/
def padNum (w : ℕ) (n : ℕ) : String :=
  let s := toString n
  String.mk (List.replicate (w - s.length) '0') ++ s

/-- Models Python `date.isoformat()`: the `YYYY-MM-DD` rendering. -/
def Date.iso (a : Date) : String :=
  padNum 4 a.y ++ "-" ++ padNum 2 a.m ++ "-" ++ padNum 2 a.d

/-- One broker instrument record (the dict fields of a Kite `instruments("NFO")`
row that `main.py` reads).  `lot_size` is optional because the source reads it
with `inst.get("lot_size", 1)`. -/
structure Instrument where
  segment : String
  name : String
  expiry : Date
  strike : ℤ
  instrument_type : String
  tradingsymbol : String
  lot_size : Option ℤ
deriving DecidableEq, Repr

/-- One broker net-position record (the dict fields `open_position_for` reads). -/
structure Position where
  exchange : String
  product : String
  tradingsymbol : String
  quantity : ℤ
deriving DecidableEq, Repr

/-! ### Strike rounding (`round_to_step`, main.py lines 63–64) -/

/-- Python 3 `round` on a float with no `ndigits`: round half to even. -/
def roundHalfEven (q : ℚ) : ℤ :=
  if q - ⌊q⌋ < 1/2 then ⌊q⌋
  else if 1/2 < q - ⌊q⌋ then ⌊q⌋ + 1
  else if ⌊q⌋ % 2 = 0 then ⌊q⌋ else ⌊q⌋ + 1

/-- `round_to_step(px, step) = int(round(px / step) * step)` (main.py 63–64). -/
def round_to_step (px : ℚ) (step : ℤ) : ℤ :=
  roundHalfEven (px / (step : ℚ)) * step

theorem roundHalfEven_ge_floor (q : ℚ) : ⌊q⌋ ≤ roundHalfEven q := by
  unfold roundHalfEven
  split_ifs <;> omega

theorem roundHalfEven_le_floor_add_one (q : ℚ) : roundHalfEven q ≤ ⌊q⌋ + 1 := by
  unfold roundHalfEven
  split_ifs <;> omega

theorem roundHalfEven_mono {p q : ℚ} (h : p ≤ q) :
    roundHalfEven p ≤ roundHalfEven q := by
  rcases lt_or_le ⌊p⌋ ⌊q⌋ with hf | hf
  · calc roundHalfEven p ≤ ⌊p⌋ + 1 := roundHalfEven_le_floor_add_one p
    _ ≤ ⌊q⌋ := by omega
    _ ≤ roundHalfEven q := roundHalfEven_ge_floor q
  · have hf' : ⌊p⌋ = ⌊q⌋ := le_antisymm (Int.floor_le_floor h) hf
    unfold roundHalfEven
    rw [hf']
    have hpq : p - (⌊q⌋ : ℚ) ≤ q - (⌊q⌋ : ℚ) := by linarith
    split_ifs <;> first | omega | linarith

/-! ### Static tables (main.py lines 37–45) -/

/-- `STRIKE_STEP = {"FINNIFTY": 50, "MIDCPNIFTY": 25}`.  Any other key raises
`KeyError` in Python; the `0` default is unreachable in `webhook` because the
root always comes from `TV_MAP`, whose range is exactly these two keys. -/
def STRIKE_STEP (root : String) : ℤ :=
  if root = "FINNIFTY" then 50
  else if root = "MIDCPNIFTY" then 25
  else 0

/-- `TV_MAP`: TradingView index name → option root (main.py lines 40–44).
`none` means the key is absent, i.e. the symbol is not in `ALLOWED_TV`
(`ALLOWED_TV = set(TV_MAP.keys())`). -/
def TV_MAP (tv : String) : Option String :=
  if tv = "NSE:CNXFINANCE" then some "FINNIFTY"
  else if tv = "NSE:NIFTY_MID_SELECT" then some "MIDCPNIFTY"
  else if tv = "NSE:MIDCPNIFTY" then some "MIDCPNIFTY"
  else none

/-! ### Instrument cache (`_reload_instruments`, main.py lines 47–52) -/

/-- The two module globals `_instruments` / `_last_reload`.  `_instruments`
is `none` before the first successful load (`_instruments = None`). -/
structure CacheState where
  instruments : Option (List Instrument)
  lastReload : ℚ
deriving DecidableEq, Repr

/-- `_reload_instruments(force)` (main.py 47–52).  `now` is `time.time()` and
`fetch` is the outcome of the broker call `KiteConnect(...).instruments("NFO")`.
The returned pair is (exception propagated to the caller if any, the globals
after the call).  A failing fetch leaves both globals untouched — the
assignment on line 51 never executes — but the exception still propagates. -/
def reload_instruments {ε : Type} (force : Bool) (now : ℚ)
    (fetch : Except ε (List Instrument)) (st : CacheState) :
    Option ε × CacheState :=
  if force = true ∨ st.instruments = none ∨ 300 < now - st.lastReload then
    match fetch with
    | .ok l => (none, ⟨some l, now⟩)
    | .error e => (some e, st)
  else (none, st)

/-! ### Expiry resolver (`nearest_expiry`, main.py lines 54–61) -/

/-- The instrument-row filter on line 56: option segment and matching root. -/
def optionRowFor (root : String) (i : Instrument) : Bool :=
  decide (i.segment = "NFO-OPT" ∧ i.name = root)

/-- `nearest_expiry(root)` (main.py 54–61) with the cache contents and
`datetime.now().date()` passed explicitly.  `sorted({...})` is modelled by
`dedup` followed by an insertion sort; the `for`/`return` loop is `find?`.
`none` models the `RuntimeError` raise on line 61. -/
def nearest_expiry (instruments : List Instrument) (root : String)
    (today : Date) : Option Date :=
  let exps := (((instruments.filter (optionRowFor root)).map
      Instrument.expiry).dedup).insertionSort (· ≤ ·)
  exps.find? fun d => decide (today ≤ d)

/-! ### Contract resolver (`find_contract`, main.py lines 66–77) -/

/-- The row test in the `for` loop of `find_contract` (main.py 69–75). -/
def contractRow (root : String) (expiry : Date) (strike : ℤ) (right : String)
    (i : Instrument) : Bool :=
  decide (i.segment = "NFO-OPT" ∧ i.name = root ∧ i.expiry = expiry ∧
    i.strike = strike ∧ i.instrument_type = right)

/-- `find_contract(root, expiry, strike, right)` (main.py 66–77): first row of
the snapshot matching on segment, root, expiry, strike and right. -/
def find_contract (instruments : List Instrument) (root : String)
    (expiry : Date) (strike : ℤ) (right : String) : Option Instrument :=
  instruments.find? (contractRow root expiry strike right)

/-- The exact-then-fallback lookup of the webhook entry path
(main.py 160–165): try each candidate strike in order, first hit wins. -/
def first_contract (instruments : List Instrument) (root : String)
    (expiry : Date) (strikes : List ℤ) (right : String) : Option Instrument :=
  match strikes with
  | [] => none
  | s :: rest =>
    match find_contract instruments root expiry s right with
    | some i => some i
    | none => first_contract instruments root expiry rest right

/-! ### Position matcher (`open_position_for`, main.py lines 90–95) -/

/-- Python `s.startswith(pre)`: `pre` is a prefix of the character sequence
of `s`. -/
def strStartsWith (s pre : String) : Bool :=
  List.isPrefixOf pre.data s.data

/-- The position filter on line 93. -/
def position_matches (root : String) (p : Position) : Bool :=
  decide (p.exchange = "NFO" ∧ p.product = "MIS" ∧
    strStartsWith p.tradingsymbol root = true ∧ p.quantity ≠ 0)

/-- `open_position_for(root)` (main.py 90–95) with the freshly fetched
`kite.positions()["net"]` list passed explicitly: first matching position. -/
def open_position_for (net : List Position) (root : String) : Option Position :=
  net.find? (position_matches root)

/-! ### Market clock (`market_open_ist`, main.py lines 97–99) -/

/-- `market_open_ist()` with the local wall-clock time passed as seconds since
midnight (a `datetime.time` compares by its (h, m, s, µs) reading, which is
exactly the seconds-since-midnight order): `time(9,15) ≤ now ≤ time(15,29)`,
i.e. 9·3600 + 15·60 = 33300 ≤ now ≤ 15·3600 + 29·60 = 55740. -/
def market_open_ist (now : ℚ) : Bool :=
  decide ((33300 : ℚ) ≤ now ∧ now ≤ (55740 : ℚ))

/-! ### Webhook handler (`webhook`, main.py lines 117–182) -/

/-- The parsed JSON payload after the transport-layer string coercions:
`signal_id` is the `str(...)` rendering used in the f-string on line 129,
`index_tv` is `str(payload.get("index_tv", "")).strip()`, `side` is the raw
string before `.upper()`, and `price` is `payload.get("price")`
(`none` when the key is absent, in which case line 154 defaults it to 0). -/
structure Payload where
  signal_id : String
  index_tv : String
  side : String
  price : Option ℚ
deriving DecidableEq, Repr

/-- Everything the handler observes from outside the request: `time.time()`
seconds-of-day for the clock, today's date, the loaded instrument snapshot,
the broker's net position list, and the order id `place_order` would return. -/
structure Env where
  now : ℚ
  today : Date
  instruments : List Instrument
  positionsNet : List Position
  orderId : String
deriving DecidableEq, Repr

/-- One `place_market(tsym, qty, side)` call (main.py 79–88). -/
structure Order where
  tradingsymbol : String
  qty : ℤ
  side : String
deriving DecidableEq, Repr

/-- The JSON bodies / exceptions `webhook` can produce.  `ignored`, `noop*`,
`okExit` and `okEntry` mirror the dict literals on lines 131, 143, 148, 152 and
173–182; `httpError` is `HTTPException(code, detail)`; `uncaught` is the
`RuntimeError` escaping from `nearest_expiry` (surfaced by the framework as a
500 response). -/
inductive WebhookResult where
  | ignored (signal_id : String)
  | noopMarketClosed
  | noopNoPosition (index : String)
  | okExit (order_id : String) (symbol : String) (qty : ℤ)
  | okEntry (order_id : String) (symbol : String) (qty : ℤ) (right : String)
      (strike : ℤ) (expiry : String)
  | httpError (code : ℕ) (detail : String)
  | uncaught (msg : String)
deriving DecidableEq, Repr

/-- Python `str.upper()` restricted to the ASCII side strings this payload
field carries: uppercase every character. -/
def upperStr (s : String) : String := ⟨s.data.map Char.toUpper⟩

/-- The identity key `sid = f"{payload.get('signal_id')}::{tv}"` (line 129). -/
def sidOf (p : Payload) : String := p.signal_id ++ "::" ++ p.index_tv

/-- The candidate strikes the entry path tries, in order (main.py 160–165):
the exact target first, then the `for k in [1, -1, 2, -2]` fallback loop. -/
def entryCands (strike step : ℤ) : List ℤ :=
  strike :: ([1, -1, 2, -2].map fun k => strike + k * step)

/-- The handler body after the duplicate check and `_seen` insertion
(main.py lines 134–182).  Returns the response / exception together with the
list of orders placed during the request. -/
def routeSignal (env : Env) (p : Payload) : WebhookResult × List Order :=
  let tv := p.index_tv
  match TV_MAP tv with
  | none =>
    (.httpError 400 ("Only CNXFINANCE or NIFTY_MID_SELECT allowed. Got " ++ tv),
      [])
  | some root =>
    let side := upperStr p.side
    if ¬ (side = "LONG" ∨ side = "SHORT" ∨ side = "EXIT") then
      (.httpError 400 "side must be LONG/SHORT/EXIT", [])
    else if side ≠ "EXIT" ∧ market_open_ist env.now = false then
      (.noopMarketClosed, [])
    else if side = "EXIT" then
      match open_position_for env.positionsNet root with
      | none => (.noopNoPosition root, [])
      | some pos =>
        let qty : ℤ := |pos.quantity|
        let tx := if 0 < pos.quantity then "SELL" else "BUY"
        (.okExit env.orderId pos.tradingsymbol qty,
          [⟨pos.tradingsymbol, qty, tx⟩])
    else
      let price := p.price.getD 0
      let step := STRIKE_STEP root
      let strike := round_to_step price step
      let right := if side = "LONG" then "CE" else "PE"
      match nearest_expiry env.instruments root env.today with
      | none => (.uncaught ("No future expiries for " ++ root), [])
      | some expiry =>
        match first_contract env.instruments root expiry
            (entryCands strike step) right with
        | none =>
          (.httpError 500 ("No contract for " ++ root ++ " " ++ expiry.iso ++
            " " ++ toString strike ++ right), [])
        | some inst =>
          let lot := inst.lot_size.getD 1
          let qty := lot * 1
          (.okEntry env.orderId inst.tradingsymbol qty right strike expiry.iso,
            [⟨inst.tradingsymbol, qty, "BUY"⟩])

/-- Outcome of one `webhook` request: response, the `_seen` keys afterwards,
and the orders placed. -/
structure WebhookOutcome where
  result : WebhookResult
  seen : List String
  orders : List Order
deriving DecidableEq, Repr

/-- One `webhook` request (main.py 117–182): the duplicate check and `_seen`
insertion of lines 128–132, then the rest of the handler (`routeSignal`).
Nothing after line 132 touches `_seen`, so the split is exact. -/
def webhookStep (env : Env) (p : Payload) (seen : List String) :
    WebhookOutcome :=
  let sid := sidOf p
  if sid ∈ seen then ⟨.ignored sid, seen, []⟩
  else
    let r := routeSignal env p
    ⟨r.1, sid :: seen, r.2⟩

/-- A whole sequence of webhook requests sharing the `_seen` set, each with its
own environment (clock reading, cache snapshot, position list, order id). -/
def runSeq (reqs : List (Env × Payload)) (seen : List String) :
    List (WebhookResult × List Order) × List String :=
  match reqs with
  | [] => ([], seen)
  | (e, p) :: rest =>
    let o := webhookStep e p seen
    let r := runSeq rest o.seen
    ((o.result, o.orders) :: r.1, r.2)

/-! ## Helper lemmas -/

theorem webhookStep_of_mem {env : Env} {p : Payload} {seen : List String}
    (h : sidOf p ∈ seen) :
    webhookStep env p seen = ⟨.ignored (sidOf p), seen, []⟩ := by
  simp [webhookStep, h]

theorem webhookStep_of_not_mem {env : Env} {p : Payload} {seen : List String}
    (h : sidOf p ∉ seen) :
    webhookStep env p seen
      = ⟨(routeSignal env p).1, sidOf p :: seen, (routeSignal env p).2⟩ := by
  simp [webhookStep, h]

theorem mem_webhookStep_seen (env : Env) (p : Payload) (seen : List String) :
    sidOf p ∈ (webhookStep env p seen).seen := by
  by_cases h : sidOf p ∈ seen <;> simp [webhookStep, h]

theorem webhookStep_seen_mono {x : String} (env : Env) (p : Payload)
    {seen : List String} (h : x ∈ seen) :
    x ∈ (webhookStep env p seen).seen := by
  by_cases hm : sidOf p ∈ seen <;> simp [webhookStep, hm, h]

theorem runSeq_cons (r : Env × Payload) (rest : List (Env × Payload))
    (seen : List String) :
    runSeq (r :: rest) seen
      = (((webhookStep r.1 r.2 seen).result, (webhookStep r.1 r.2 seen).orders)
            :: (runSeq rest (webhookStep r.1 r.2 seen).seen).1,
          (runSeq rest (webhookStep r.1 r.2 seen).seen).2) := rfl

theorem runSeq_append (xs ys : List (Env × Payload)) (seen : List String) :
    runSeq (xs ++ ys) seen
      = ((runSeq xs seen).1 ++ (runSeq ys (runSeq xs seen).2).1,
          (runSeq ys (runSeq xs seen).2).2) := by
  induction xs generalizing seen with
  | nil => simp [runSeq]
  | cons r rest ih => simp [runSeq_cons, List.cons_append, ih]

theorem runSeq_length (reqs : List (Env × Payload)) (seen : List String) :
    (runSeq reqs seen).1.length = reqs.length := by
  induction reqs generalizing seen with
  | nil => simp [runSeq]
  | cons r rest ih => simp [runSeq_cons, ih]

theorem runSeq_seen_mono {x : String} (reqs : List (Env × Payload))
    {seen : List String} (h : x ∈ seen) :
    x ∈ (runSeq reqs seen).2 := by
  induction reqs generalizing seen with
  | nil => simpa [runSeq] using h
  | cons r rest ih => exact ih (webhookStep_seen_mono r.1 r.2 h)

/-! ## C3: strike rounding -/

/-- C3: for every price and every positive strike step, `round_to_step`
returns a multiple of the step and is monotone (non-decreasing) in the price
for a fixed step. -/
theorem round_to_step_multiple_mono (px : ℚ) (step : ℤ) (hstep : 0 < step) :
    step ∣ round_to_step px step
      ∧ ∀ px' : ℚ, px ≤ px' → round_to_step px step ≤ round_to_step px' step := by
  constructor
  · exact dvd_mul_left step (roundHalfEven (px / (step : ℚ)))
  · intro px' h
    have hs : (0 : ℚ) < (step : ℚ) := by exact_mod_cast hstep
    have hdiv : px / (step : ℚ) ≤ px' / (step : ℚ) :=
      div_le_div_of_nonneg_right h hs.le
    exact mul_le_mul_of_nonneg_right (roundHalfEven_mono hdiv) (le_of_lt hstep)

/-- Witness for C3 at price 21034 and step 50. -/
theorem round_to_step_multiple_mono_witness :
    50 ∣ round_to_step 21034 50
      ∧ round_to_step 21034 50 ≤ round_to_step 21060 50 :=
  ⟨(round_to_step_multiple_mono 21034 50 (by decide)).1,
    (round_to_step_multiple_mono 21034 50 (by decide)).2 21060 (by norm_num)⟩

/-! ## C1: duplicate suppression -/

/-- C1: in any sequence of webhook requests, among all requests sharing the
same identity key (signal id `::` raw underlying symbol), only the first one
can ever reach order placement: every later request with that key answers
`status=ignored, reason=duplicate` and places no order.  Stated for the
request `r2` appearing anywhere after a request `r1` with the same key: its
output (at position `pre.length + 1 + mid.length` of the output list) is the
`ignored` response with an empty order list. -/
theorem webhook_duplicate_suppression (s0 : List String)
    (pre mid post : List (Env × Payload)) (r1 r2 : Env × Payload)
    (hsid : sidOf r1.2 = sidOf r2.2) :
    ∃ outsBefore outsAfter,
      (runSeq (pre ++ r1 :: mid ++ r2 :: post) s0).1
          = outsBefore
              ++ (WebhookResult.ignored (sidOf r2.2), ([] : List Order))
                :: outsAfter
        ∧ outsBefore.length = pre.length + 1 + mid.length := by
  rw [runSeq_append]
  rw [runSeq_cons]
  rw [runSeq_append]
  rw [runSeq_cons]
  have hmem1 : sidOf r2.2
      ∈ (webhookStep r1.1 r1.2 (runSeq pre s0).2).seen := by
    rw [← hsid]
    exact mem_webhookStep_seen _ _ _
  have hmem2 : sidOf r2.2
      ∈ (runSeq mid (webhookStep r1.1 r1.2 (runSeq pre s0).2).seen).2 :=
    runSeq_seen_mono mid hmem1
  rw [webhookStep_of_mem hmem2]
  refine ⟨(runSeq pre s0).1
      ++ ((webhookStep r1.1 r1.2 (runSeq pre s0).2).result,
          (webhookStep r1.1 r1.2 (runSeq pre s0).2).orders)
        :: (runSeq mid (webhookStep r1.1 r1.2 (runSeq pre s0).2).seen).1,
    (runSeq post
      (runSeq mid (webhookStep r1.1 r1.2 (runSeq pre s0).2).seen).2).1,
    ?_, ?_⟩
  · simp
  · simp [runSeq_length]
    omega

/-- Witness for C1: the same signal (id 1, symbol NSE:CNXFINANCE) delivered
twice in a row from an empty `_seen` set; the second output is the ignored
duplicate with no order. -/
theorem webhook_duplicate_suppression_witness :
    ∃ outsBefore outsAfter,
      (runSeq [(⟨36000, ⟨2026, 10, 12⟩, [], [], "ORD1"⟩,
                  ⟨"1", "NSE:CNXFINANCE", "LONG", some 21034⟩),
                (⟨36100, ⟨2026, 10, 12⟩, [], [], "ORD2"⟩,
                  ⟨"1", "NSE:CNXFINANCE", "LONG", some 21034⟩)] []).1
          = outsBefore
              ++ (WebhookResult.ignored
                    (sidOf ⟨"1", "NSE:CNXFINANCE", "LONG", some 21034⟩),
                  ([] : List Order))
                :: outsAfter
        ∧ outsBefore.length = 1 :=
  webhook_duplicate_suppression [] [] [] []
    (⟨36000, ⟨2026, 10, 12⟩, [], [], "ORD1"⟩,
      ⟨"1", "NSE:CNXFINANCE", "LONG", some 21034⟩)
    (⟨36100, ⟨2026, 10, 12⟩, [], [], "ORD2"⟩,
      ⟨"1", "NSE:CNXFINANCE", "LONG", some 21034⟩)
    rfl

/-! ## C2: unsupported symbols and the dedup set

The claim says an unsupported symbol is rejected *before* its identity is
recorded in the deduplication set.  In the source the `_seen[sid] = time...`
insertion (line 132) runs before the `ALLOWED_TV` check (line 134), so the
identity is recorded first and then the 400 is raised. -/

/-- A quiet environment for concrete scenarios: clock at midnight, no cached
instruments, no open positions. -/
def quietEnv : Env := ⟨0, ⟨2026, 1, 1⟩, [], [], "OID"⟩

/-- Payload carrying the unsupported symbol `NSE:BANKNIFTY`. -/
def payBanknifty : Payload := ⟨"7", "NSE:BANKNIFTY", "LONG", none⟩

/-- Counterexample to C2: an `NSE:BANKNIFTY` request from an empty `_seen` set
is answered with the 400 error, yet `_seen` is *not* unchanged — the request's
identity key has been recorded. -/
theorem unsupported_symbol_dedup_cex :
    (webhookStep quietEnv payBanknifty []).result
        = .httpError 400
            "Only CNXFINANCE or NIFTY_MID_SELECT allowed. Got NSE:BANKNIFTY"
      ∧ (webhookStep quietEnv payBanknifty []).seen ≠ ([] : List String) := by
  constructor
  · decide
  · decide

/-- C2 as amended: a fresh signal whose underlying symbol is not in the
supported set is rejected with a 400 error, but only *after* its identity key
is inserted into the deduplication set: `_seen` gains exactly that key. -/
theorem unsupported_symbol_recorded_then_rejected (env : Env) (p : Payload)
    (seen : List String) (h1 : sidOf p ∉ seen)
    (h2 : TV_MAP p.index_tv = none) :
    (webhookStep env p seen).result
        = .httpError 400
            ("Only CNXFINANCE or NIFTY_MID_SELECT allowed. Got " ++ p.index_tv)
      ∧ (webhookStep env p seen).seen = sidOf p :: seen := by
  rw [webhookStep_of_not_mem h1]
  simp [routeSignal, h2]

/-- Witness for the amended C2 at the `NSE:BANKNIFTY` scenario. -/
theorem unsupported_symbol_recorded_witness :
    (webhookStep quietEnv payBanknifty []).result
        = .httpError 400
            ("Only CNXFINANCE or NIFTY_MID_SELECT allowed. Got "
              ++ payBanknifty.index_tv)
      ∧ (webhookStep quietEnv payBanknifty []).seen = sidOf payBanknifty :: [] :=
  unsupported_symbol_recorded_then_rejected quietEnv payBanknifty []
    (by decide) (by decide)

/-! ## C4: contract fallback resolution -/

theorem first_contract_eq_none {I : List Instrument} {root : String}
    {e : Date} {rt : String} (cs : List ℤ)
    (h : ∀ c ∈ cs, find_contract I root e c rt = none) :
    first_contract I root e cs rt = none := by
  induction cs with
  | nil => rfl
  | cons c rest ih =>
    unfold first_contract
    rw [h c (by simp)]
    exact ih fun c' hc' => h c' (by simp [hc'])

theorem first_contract_of_get {I : List Instrument} {root : String} {e : Date}
    {rt : String} :
    ∀ (cs : List ℤ) (j : ℕ) (hj : j < cs.length) (i : Instrument),
      (∀ k (hk : k < j),
        find_contract I root e (cs.get ⟨k, Nat.lt_trans hk hj⟩) rt = none) →
      find_contract I root e (cs.get ⟨j, hj⟩) rt = some i →
      first_contract I root e cs rt = some i := by
  intro cs
  induction cs with
  | nil => intro j hj; simp at hj
  | cons c rest ih =>
    intro j hj i hnone hsome
    cases j with
    | zero =>
      have hsome' : find_contract I root e c rt = some i := by simpa using hsome
      simp [first_contract, hsome']
    | succ j' =>
      have h0 : find_contract I root e c rt = none := by
        simpa using hnone 0 (Nat.succ_pos j')
      unfold first_contract
      rw [h0]
      exact ih j' (Nat.lt_of_succ_lt_succ hj) i
        (fun k hk => by simpa using hnone (k + 1) (Nat.succ_lt_succ hk))
        (by simpa using hsome)

/-- The entry path of `routeSignal` when the expiry resolves but no candidate
contract exists: `HTTPException(500, ...)` and no order. -/
theorem routeSignal_entry_500 {env : Env} {p : Payload} {root : String}
    {ex : Date}
    (h1 : TV_MAP p.index_tv = some root)
    (h2 : upperStr p.side = "LONG" ∨ upperStr p.side = "SHORT")
    (h3 : market_open_ist env.now = true)
    (h4 : nearest_expiry env.instruments root env.today = some ex)
    (h5 : first_contract env.instruments root ex
        (entryCands (round_to_step (p.price.getD 0) (STRIKE_STEP root))
          (STRIKE_STEP root))
        (if upperStr p.side = "LONG" then "CE" else "PE") = none) :
    routeSignal env p
      = (.httpError 500 ("No contract for " ++ root ++ " " ++ ex.iso ++ " "
          ++ toString (round_to_step (p.price.getD 0) (STRIKE_STEP root))
          ++ (if upperStr p.side = "LONG" then "CE" else "PE")), []) := by
  rcases h2 with h | h
  all_goals simp [h] at h5
  all_goals simp [routeSignal, h1, h, h3, h4, h5]

/-- The entry path of `routeSignal` when a candidate contract is found:
a market BUY of one lot of that contract. -/
theorem routeSignal_entry_ok {env : Env} {p : Payload} {root : String}
    {ex : Date} {i : Instrument}
    (h1 : TV_MAP p.index_tv = some root)
    (h2 : upperStr p.side = "LONG" ∨ upperStr p.side = "SHORT")
    (h3 : market_open_ist env.now = true)
    (h4 : nearest_expiry env.instruments root env.today = some ex)
    (h5 : first_contract env.instruments root ex
        (entryCands (round_to_step (p.price.getD 0) (STRIKE_STEP root))
          (STRIKE_STEP root))
        (if upperStr p.side = "LONG" then "CE" else "PE") = some i) :
    routeSignal env p
      = (.okEntry env.orderId i.tradingsymbol (i.lot_size.getD 1 * 1)
            (if upperStr p.side = "LONG" then "CE" else "PE")
            (round_to_step (p.price.getD 0) (STRIKE_STEP root)) ex.iso,
          [⟨i.tradingsymbol, i.lot_size.getD 1 * 1, "BUY"⟩]) := by
  rcases h2 with h | h
  all_goals simp [h] at h5
  all_goals simp [routeSignal, h1, h, h3, h4, h5]

/-- C4: on entry, contract resolution tries the exact target strike first and
then the fallback offsets +1, −1, +2, −2 strike-steps in exactly that order
(conjunct 3 lists the candidates, conjunct 2 says the first hit wins and is
the contract ordered); if all five candidates miss, the request fails with a
500 error and no order is placed (conjunct 1). -/
theorem entry_fallback_resolution (env : Env) (p : Payload)
    (seen : List String) (root : String) (ex : Date)
    (step strike : ℤ) (right : String)
    (h0 : sidOf p ∉ seen) (h1 : TV_MAP p.index_tv = some root)
    (h2 : upperStr p.side = "LONG" ∨ upperStr p.side = "SHORT")
    (h3 : market_open_ist env.now = true)
    (h4 : nearest_expiry env.instruments root env.today = some ex)
    (hstep : step = STRIKE_STEP root)
    (hstrike : strike = round_to_step (p.price.getD 0) step)
    (hright : right = if upperStr p.side = "LONG" then "CE" else "PE") :
    ((∀ c ∈ entryCands strike step,
        find_contract env.instruments root ex c right = none) →
      (webhookStep env p seen).result
          = .httpError 500 ("No contract for " ++ root ++ " " ++ ex.iso
              ++ " " ++ toString strike ++ right)
        ∧ (webhookStep env p seen).orders = [])
    ∧ (∀ (j : ℕ) (hj : j < (entryCands strike step).length) (i : Instrument),
        (∀ k (hk : k < j), find_contract env.instruments root ex
          ((entryCands strike step).get ⟨k, Nat.lt_trans hk hj⟩) right = none) →
        find_contract env.instruments root ex
          ((entryCands strike step).get ⟨j, hj⟩) right = some i →
        (webhookStep env p seen).result
            = .okEntry env.orderId i.tradingsymbol (i.lot_size.getD 1 * 1)
                right strike ex.iso
          ∧ (webhookStep env p seen).orders
              = [⟨i.tradingsymbol, i.lot_size.getD 1 * 1, "BUY"⟩])
    ∧ entryCands strike step
        = [strike, strike + step, strike - step,
            strike + 2 * step, strike - 2 * step] := by
  subst hstep
  subst hstrike
  subst hright
  refine ⟨?_, ?_, ?_⟩
  · intro hall
    have h5 := first_contract_eq_none _ hall
    rw [webhookStep_of_not_mem h0, routeSignal_entry_500 h1 h2 h3 h4 h5]
    exact ⟨rfl, rfl⟩
  · intro j hj i hprev hsome
    have h5 := first_contract_of_get _ j hj i hprev hsome
    rw [webhookStep_of_not_mem h0, routeSignal_entry_ok h1 h2 h3 h4 h5]
    exact ⟨rfl, rfl⟩
  · simp [entryCands]
    omega

/-- The 21100 CE contract of the spec's fallback scenario (the 21050 strike is
absent from the snapshot). -/
def inst21100 : Instrument :=
  ⟨"NFO-OPT", "FINNIFTY", ⟨2026, 10, 16⟩, 21100, "CE",
    "FINNIFTY26O1621100CE", some 40⟩

/-- Entry environment for the fallback scenario: 10:00 clock, snapshot holding
only the 21100 CE contract. -/
def envFallback : Env := ⟨36000, ⟨2026, 10, 12⟩, [inst21100], [], "ORD2"⟩

/-- LONG signal at price 21034 (target strike 21050). -/
def payLong21034 : Payload := ⟨"2", "NSE:CNXFINANCE", "LONG", some 21034⟩

/-- Evaluation of the target strike of the scenario. -/
theorem round_21034_50 : round_to_step 21034 50 = 21050 := by
  unfold round_to_step roundHalfEven
  norm_num

/-- Witness for C4: with the exact 21050 CE missing and 21100 CE present, the
+1-step fallback (index 1 of the candidate list) is ordered. -/
theorem entry_fallback_resolution_witness :
    (webhookStep envFallback payLong21034 []).result
        = .okEntry envFallback.orderId inst21100.tradingsymbol
            (inst21100.lot_size.getD 1 * 1) "CE" 21050 (Date.iso ⟨2026, 10, 16⟩)
      ∧ (webhookStep envFallback payLong21034 []).orders
          = [⟨inst21100.tradingsymbol, inst21100.lot_size.getD 1 * 1, "BUY"⟩] :=
  (entry_fallback_resolution envFallback payLong21034 [] "FINNIFTY"
      ⟨2026, 10, 16⟩ 50 21050 "CE"
      (by decide) (by decide) (Or.inl (by decide)) (by decide) (by decide)
      (by decide) (by simpa using round_21034_50.symm) (by decide)).2.1
    1 (by decide) inst21100
    (fun k hk => by
      have hk0 : k = 0 := by omega
      subst hk0
      show find_contract envFallback.instruments "FINNIFTY" ⟨2026, 10, 16⟩
        21050 "CE" = none
      decide)
    (by decide)

/-! ## C5: market clock gate -/

/-- True exactly for the order-placing responses (`status: ok`). -/
def WebhookResult.isOk : WebhookResult → Bool
  | .okExit _ _ _ => true
  | .okEntry _ _ _ _ _ _ => true
  | _ => false

/-- C5: with the wall clock outside [09:15, 15:29] no entry request (side
LONG/SHORT) ever places an order — the request terminates without an `ok`
response (noop / ignored / 4xx–5xx) — while an EXIT request never consults
the clock at all: its whole outcome is invariant under changing `now`. -/
theorem market_clock_gate (env : Env) (p : Payload) (seen : List String)
    (hclock : market_open_ist env.now = false) :
    ((upperStr p.side = "LONG" ∨ upperStr p.side = "SHORT") →
      (webhookStep env p seen).orders = []
        ∧ ((webhookStep env p seen).result).isOk = false)
    ∧ (upperStr p.side = "EXIT" →
        ∀ now' : ℚ,
          webhookStep ⟨now', env.today, env.instruments, env.positionsNet,
            env.orderId⟩ p seen = webhookStep env p seen) := by
  constructor
  · intro hside
    by_cases hm : sidOf p ∈ seen
    · rw [webhookStep_of_mem hm]
      exact ⟨rfl, rfl⟩
    · rw [webhookStep_of_not_mem hm]
      rcases hside with h | h <;>
        cases htv : TV_MAP p.index_tv <;>
          simp [routeSignal, htv, h, hclock, WebhookResult.isOk]
  · intro hexit now'
    by_cases hm : sidOf p ∈ seen
    · rw [webhookStep_of_mem hm, webhookStep_of_mem hm]
    · rw [webhookStep_of_not_mem hm, webhookStep_of_not_mem hm]
      have hroute : routeSignal ⟨now', env.today, env.instruments,
          env.positionsNet, env.orderId⟩ p = routeSignal env p := by
        cases htv : TV_MAP p.index_tv <;>
          simp [routeSignal, htv, hexit]
      rw [hroute]

/-- Entry environment with the clock at midnight. -/
def envClosed : Env := ⟨0, ⟨2026, 10, 12⟩, [inst21100], [], "ORD3"⟩

/-- Witness for C5: a LONG signal at midnight places nothing and gets no `ok`
response. -/
theorem market_clock_gate_witness :
    (webhookStep envClosed payLong21034 []).orders = []
      ∧ ((webhookStep envClosed payLong21034 []).result).isOk = false :=
  (market_clock_gate envClosed payLong21034 [] (by decide)).1
    (Or.inl (by decide))

/-! ## C8: shape of entry orders -/

/-- C8: every placed entry order is a market BUY for exactly one lot of the
resolved contract (quantity = lot size × 1) with right CE for LONG and PE for
SHORT — the order side is BUY for both directions — and the success response
reports order id, trading symbol, quantity, right, strike and the expiry as
its ISO date. -/
theorem entry_order_shape (env : Env) (p : Payload) (seen : List String)
    (root : String) (ex : Date) (step strike : ℤ) (right : String)
    (i : Instrument)
    (h0 : sidOf p ∉ seen) (h1 : TV_MAP p.index_tv = some root)
    (h2 : upperStr p.side = "LONG" ∨ upperStr p.side = "SHORT")
    (h3 : market_open_ist env.now = true)
    (h4 : nearest_expiry env.instruments root env.today = some ex)
    (hstep : step = STRIKE_STEP root)
    (hstrike : strike = round_to_step (p.price.getD 0) step)
    (hright : right = if upperStr p.side = "LONG" then "CE" else "PE")
    (h5 : first_contract env.instruments root ex (entryCands strike step) right
        = some i) :
    (webhookStep env p seen).orders
        = [⟨i.tradingsymbol, i.lot_size.getD 1 * 1, "BUY"⟩]
      ∧ (webhookStep env p seen).result
          = .okEntry env.orderId i.tradingsymbol (i.lot_size.getD 1 * 1)
              right strike ex.iso := by
  subst hstep
  subst hstrike
  subst hright
  rw [webhookStep_of_not_mem h0, routeSignal_entry_ok h1 h2 h3 h4 h5]
  exact ⟨rfl, rfl⟩

/-- The 21050 PE contract for the SHORT entry scenario. -/
def inst21050PE : Instrument :=
  ⟨"NFO-OPT", "FINNIFTY", ⟨2026, 10, 16⟩, 21050, "PE",
    "FINNIFTY26O1621050PE", some 40⟩

/-- Entry environment whose snapshot holds the 21050 PE contract. -/
def envShort : Env := ⟨36000, ⟨2026, 10, 12⟩, [inst21050PE], [], "ORD4"⟩

/-- Lower-case SHORT signal at price 21034. -/
def payShort21034 : Payload := ⟨"3", "NSE:CNXFINANCE", "short", some 21034⟩

/-- Witness for C8: a SHORT entry buys one lot of the 21050 PE contract. -/
theorem entry_order_shape_witness :
    (webhookStep envShort payShort21034 []).orders
        = [⟨inst21050PE.tradingsymbol, inst21050PE.lot_size.getD 1 * 1, "BUY"⟩]
      ∧ (webhookStep envShort payShort21034 []).result
          = .okEntry envShort.orderId inst21050PE.tradingsymbol
              (inst21050PE.lot_size.getD 1 * 1) "PE" 21050
              (Date.iso ⟨2026, 10, 16⟩) :=
  entry_order_shape envShort payShort21034 [] "FINNIFTY" ⟨2026, 10, 16⟩
    50 21050 "PE" inst21050PE
    (by decide) (by decide) (Or.inr (by decide)) (by decide) (by decide)
    (by decide) (by simpa using round_21034_50.symm) (by decide) (by decide)

/-! ## C10: missing price defaults to 0 -/

/-- C10: an entry request without a `price` field is not rejected with a 400:
the price defaults to 0 (the whole outcome equals that of the same payload
with price 0) and the target strike computed from it is
`round_to_step 0 step = 0`. -/
theorem entry_price_default_zero (env : Env) (p : Payload)
    (seen : List String) (root : String)
    (hprice : p.price = none)
    (h1 : TV_MAP p.index_tv = some root)
    (h2 : upperStr p.side = "LONG" ∨ upperStr p.side = "SHORT") :
    (∀ m, (webhookStep env p seen).result ≠ .httpError 400 m)
    ∧ webhookStep env p seen
        = webhookStep env ⟨p.signal_id, p.index_tv, p.side, some 0⟩ seen
    ∧ round_to_step 0 (STRIKE_STEP root) = 0 := by
  refine ⟨?_, ?_, ?_⟩
  · intro m
    by_cases hm : sidOf p ∈ seen
    · rw [webhookStep_of_mem hm]
      simp
    · rw [webhookStep_of_not_mem hm]
      rcases h2 with h | h <;>
        simp [routeSignal, h1, h] <;>
          (repeat' split) <;>
            simp_all
  · have hsid : sidOf (⟨p.signal_id, p.index_tv, p.side, some 0⟩ : Payload)
        = sidOf p := rfl
    by_cases hm : sidOf p ∈ seen
    · rw [webhookStep_of_mem hm, webhookStep_of_mem (hsid.symm ▸ hm)]
      rw [hsid]
    · rw [webhookStep_of_not_mem hm,
        webhookStep_of_not_mem (by simpa [hsid] using hm)]
      have hroute : routeSignal env p
          = routeSignal env ⟨p.signal_id, p.index_tv, p.side, some 0⟩ := by
        cases htv : TV_MAP p.index_tv <;>
          simp [routeSignal, htv, hprice]
      rw [hroute, hsid]
  · norm_num [round_to_step, roundHalfEven]

/-- LONG signal with no price field. -/
def payNoPrice : Payload := ⟨"5", "NSE:MIDCPNIFTY", "LONG", none⟩

/-- Witness for C10 on a priceless MIDCPNIFTY LONG request. -/
theorem entry_price_default_zero_witness :
    (∀ m, (webhookStep quietEnv payNoPrice []).result ≠ .httpError 400 m)
    ∧ webhookStep quietEnv payNoPrice []
        = webhookStep quietEnv
            ⟨payNoPrice.signal_id, payNoPrice.index_tv, payNoPrice.side,
              some 0⟩ []
    ∧ round_to_step 0 (STRIKE_STEP "MIDCPNIFTY") = 0 :=
  entry_price_default_zero quietEnv payNoPrice [] "MIDCPNIFTY"
    rfl (by decide) (Or.inl (by decide))

/-! ## C6: nearest expiry -/

/-- In a `≤`-sorted list of dates, the first element `find?` accepts with the
predicate `today ≤ ·` is minimal among all accepted elements. -/
theorem find?_sorted_first_ge {l : List Date} (hs : l.Sorted (· ≤ ·))
    {today d : Date}
    (h : l.find? (fun x => decide (today ≤ x)) = some d) :
    ∀ x ∈ l, today ≤ x → d ≤ x := by
  induction l with
  | nil => simp at h
  | cons a t ih =>
    intro x hx htx
    by_cases ha : today ≤ a
    · rw [List.find?_cons_of_pos _ (by simpa using ha)] at h
      have had : a = d := by simpa using h
      rcases List.mem_cons.mp hx with rfl | hx
      · exact had ▸ Date.le_refl x
      · exact had ▸ (List.sorted_cons.mp hs).1 x hx
    · rw [List.find?_cons_of_neg _ (by simpa using ha)] at h
      rcases List.mem_cons.mp hx with rfl | hx
      · exact absurd htx ha
      · exact ih (List.sorted_cons.mp hs).2 h x hx htx

/-- C6: when `nearest_expiry` returns a date it is an expiry of an option-row
of the requested root, it is ≥ today, and it is the smallest such expiry;
when it fails (the `RuntimeError` raise, modelled as `none`) every expiry the
root has in the option segment lies strictly in the past — in particular it
never silently returns a past expiry. -/
theorem nearest_expiry_spec (instruments : List Instrument) (root : String)
    (today : Date) :
    (∀ d, nearest_expiry instruments root today = some d →
      today ≤ d
        ∧ (∃ i ∈ instruments,
            i.segment = "NFO-OPT" ∧ i.name = root ∧ i.expiry = d)
        ∧ ∀ i ∈ instruments, i.segment = "NFO-OPT" → i.name = root →
            today ≤ i.expiry → d ≤ i.expiry)
    ∧ (nearest_expiry instruments root today = none →
        ∀ i ∈ instruments, i.segment = "NFO-OPT" → i.name = root →
          i.expiry < today) := by
  have hmem : ∀ e : Date,
      e ∈ (((instruments.filter (optionRowFor root)).map
          Instrument.expiry).dedup).insertionSort (· ≤ ·)
        ↔ ∃ i ∈ instruments, optionRowFor root i = true ∧ i.expiry = e := by
    intro e
    rw [(List.perm_insertionSort _ _).mem_iff, List.mem_dedup, List.mem_map]
    constructor
    · rintro ⟨i, hi, rfl⟩
      rw [List.mem_filter] at hi
      exact ⟨i, hi.1, hi.2, rfl⟩
    · rintro ⟨i, hi, hrow, rfl⟩
      exact ⟨i, List.mem_filter.mpr ⟨hi, hrow⟩, rfl⟩
  have hsorted : (((instruments.filter (optionRowFor root)).map
      Instrument.expiry).dedup).insertionSort (· ≤ ·) |>.Sorted (· ≤ ·) :=
    List.sorted_insertionSort _ _
  constructor
  · intro d hd
    simp only [nearest_expiry] at hd
    refine ⟨?_, ?_, ?_⟩
    · simpa using List.find?_some hd
    · obtain ⟨i, hi, hrow, hexp⟩ :=
        (hmem d).mp (List.mem_of_find?_eq_some hd)
      have hrow' := of_decide_eq_true hrow
      exact ⟨i, hi, hrow'.1, hrow'.2, hexp⟩
    · intro i hi hseg hname htoday
      have hmem' : i.expiry ∈ (((instruments.filter (optionRowFor root)).map
          Instrument.expiry).dedup).insertionSort (· ≤ ·) :=
        (hmem i.expiry).mpr ⟨i, hi, decide_eq_true (by exact ⟨hseg, hname⟩), rfl⟩
      exact find?_sorted_first_ge hsorted hd i.expiry hmem' htoday
  · intro hnone i hi hseg hname
    simp only [nearest_expiry] at hnone
    have hmem' : i.expiry ∈ (((instruments.filter (optionRowFor root)).map
        Instrument.expiry).dedup).insertionSort (· ≤ ·) :=
      (hmem i.expiry).mpr ⟨i, hi, decide_eq_true (by exact ⟨hseg, hname⟩), rfl⟩
    have := List.find?_eq_none.mp hnone i.expiry hmem'
    exact Date.lt_of_not_le (by simpa using this)

/-- A week-earlier, already expired FINNIFTY contract. -/
def instPast : Instrument :=
  ⟨"NFO-OPT", "FINNIFTY", ⟨2026, 10, 9⟩, 21050, "CE",
    "FINNIFTY26O0921050CE", some 40⟩

/-- Witness for C6: with an expired 2026-10-09 row and a live 2026-10-16 row
in the snapshot, the resolver picks 2026-10-16. -/
theorem nearest_expiry_spec_witness :
    (⟨2026, 10, 12⟩ : Date) ≤ ⟨2026, 10, 16⟩
      ∧ (∃ i ∈ [instPast, inst21100],
          i.segment = "NFO-OPT" ∧ i.name = "FINNIFTY"
            ∧ i.expiry = ⟨2026, 10, 16⟩)
      ∧ ∀ i ∈ [instPast, inst21100], i.segment = "NFO-OPT" →
          i.name = "FINNIFTY" → (⟨2026, 10, 12⟩ : Date) ≤ i.expiry →
          (⟨2026, 10, 16⟩ : Date) ≤ i.expiry :=
  (nearest_expiry_spec [instPast, inst21100] "FINNIFTY" ⟨2026, 10, 12⟩).1
    ⟨2026, 10, 16⟩ (by decide)

/-! ## C7: instrument cache refresh failure -/

/-- A cache state already holding a (stale) snapshot, loaded at time 0. -/
def staleState : CacheState := ⟨some [inst21100], 0⟩

/-- Counterexample to C7: the TTL has lapsed (now = 301 > 300), the broker
fetch fails, a prior snapshot exists — and yet the error still propagates to
the caller instead of the caller proceeding with the stale data. -/
theorem reload_error_cex :
    staleState.instruments ≠ none
      ∧ (reload_instruments false 301 (Except.error "network down")
          staleState).1 = some "network down" := by
  constructor
  · decide
  · unfold reload_instruments staleState
    norm_num

/-- C7 as amended: when the broker fetch fails the stale snapshot (if any) is
retained — the cache state is left untouched — but the error propagates to
the caller exactly when a refresh was attempted (forced, no snapshot yet, or
TTL elapsed), *even if* a prior snapshot exists; only when no refresh was due
does the caller proceed without seeing the error. -/
theorem reload_error_keeps_stale {ε : Type} (force : Bool) (now : ℚ)
    (st : CacheState) (e : ε) :
    (reload_instruments force now (Except.error e) st).2 = st
      ∧ ((force = true ∨ st.instruments = none ∨ 300 < now - st.lastReload) →
          (reload_instruments force now (Except.error e) st).1 = some e)
      ∧ (¬ (force = true ∨ st.instruments = none ∨ 300 < now - st.lastReload) →
          (reload_instruments force now (Except.error e) st).1 = none) := by
  unfold reload_instruments
  split_ifs with h <;> simp [h]

/-- Witness for the amended C7 at the stale-snapshot scenario. -/
theorem reload_error_keeps_stale_witness :
    (reload_instruments false 301 (Except.error "network down")
        staleState).2 = staleState
      ∧ (reload_instruments false 301 (Except.error "network down")
          staleState).1 = some "network down" :=
  ⟨(reload_error_keeps_stale false 301 staleState "network down").1,
    (reload_error_keeps_stale false 301 staleState "network down").2.1
      (Or.inr (Or.inr (by norm_num [staleState])))⟩

/-! ## C9: exit handling and position matching -/

theorem find?_first_of_prefix_none {α : Type} (p : α → Bool) :
    ∀ (l1 : List α) (x : α) (l2 : List α), p x = true →
      (∀ y ∈ l1, p y = false) → (l1 ++ x :: l2).find? p = some x := by
  intro l1
  induction l1 with
  | nil => intro x l2 hx _; simpa using List.find?_cons_of_pos _ hx
  | cons a t ih =>
    intro x l2 hx hall
    rw [List.cons_append,
      List.find?_cons_of_neg _ (by simp [hall a (by simp)])]
    exact ih x l2 hx fun y hy => hall y (by simp [hy])

/-- The exit path of `routeSignal`: after the gate, the handler looks up the
first matching open position and either no-ops or places the opposite-side
market order for the full absolute quantity. -/
theorem routeSignal_exit {env : Env} {p : Payload} {root : String}
    (h1 : TV_MAP p.index_tv = some root)
    (h2 : upperStr p.side = "EXIT") :
    routeSignal env p
      = match open_position_for env.positionsNet root with
        | none => (.noopNoPosition root, [])
        | some pos =>
          (.okExit env.orderId pos.tradingsymbol |pos.quantity|,
            [⟨pos.tradingsymbol, |pos.quantity|,
              if 0 < pos.quantity then "SELL" else "BUY"⟩]) := by
  simp [routeSignal, h1, h2]

/-- C9: on EXIT the matcher returns the first broker net position with
exchange NFO, product MIS, symbol starting with the root and non-zero
quantity (conjunct 3); with no match the request is a no-op with reason
"no open position" and no order (conjunct 1); with a match a market order of
opposite sign (SELL for long, BUY for short) and full absolute quantity is
placed (conjunct 2). -/
theorem exit_position_matching (env : Env) (p : Payload) (seen : List String)
    (root : String)
    (h0 : sidOf p ∉ seen) (h1 : TV_MAP p.index_tv = some root)
    (h2 : upperStr p.side = "EXIT") :
    (open_position_for env.positionsNet root = none →
      (webhookStep env p seen).result = .noopNoPosition root
        ∧ (webhookStep env p seen).orders = [])
    ∧ (∀ pos, open_position_for env.positionsNet root = some pos →
        (pos.exchange = "NFO" ∧ pos.product = "MIS"
            ∧ strStartsWith pos.tradingsymbol root = true ∧ pos.quantity ≠ 0)
          ∧ (webhookStep env p seen).result
              = .okExit env.orderId pos.tradingsymbol |pos.quantity|
          ∧ (webhookStep env p seen).orders
              = [⟨pos.tradingsymbol, |pos.quantity|,
                  if 0 < pos.quantity then "SELL" else "BUY"⟩])
    ∧ (∀ (l1 : List Position) (pos : Position) (l2 : List Position),
        env.positionsNet = l1 ++ pos :: l2 →
        position_matches root pos = true →
        (∀ q ∈ l1, position_matches root q = false) →
        open_position_for env.positionsNet root = some pos) := by
  refine ⟨?_, ?_, ?_⟩
  · intro hpos
    rw [webhookStep_of_not_mem h0, routeSignal_exit h1 h2, hpos]
    exact ⟨rfl, rfl⟩
  · intro pos hpos
    refine ⟨?_, ?_⟩
    · have := List.find?_some hpos
      exact of_decide_eq_true this
    · rw [webhookStep_of_not_mem h0, routeSignal_exit h1 h2, hpos]
      exact ⟨rfl, rfl⟩
  · intro l1 pos l2 hnet hpos hl1
    unfold open_position_for
    rw [hnet]
    exact find?_first_of_prefix_none _ l1 pos l2 hpos hl1

/-- A non-NFO equity position that must be skipped by the matcher. -/
def posEquity : Position := ⟨"NSE", "CNC", "RELIANCE", 5⟩

/-- The held long FINNIFTY option position. -/
def posLong : Position := ⟨"NFO", "MIS", "FINNIFTY26O1621050CE", 40⟩

/-- Exit environment: clock at midnight (exits bypass the gate), net position
list holding an equity position followed by the long option position. -/
def envExit : Env := ⟨0, ⟨2026, 10, 12⟩, [], [posEquity, posLong], "ORD5"⟩

/-- Lower-case EXIT signal. -/
def payExit : Payload := ⟨"4", "NSE:CNXFINANCE", "exit", none⟩

/-- Witness for C9: the matcher skips the equity row, finds the long option
position and a SELL of the full 40 is placed. -/
theorem exit_position_matching_witness :
    (posLong.exchange = "NFO" ∧ posLong.product = "MIS"
        ∧ strStartsWith posLong.tradingsymbol "FINNIFTY" = true
        ∧ posLong.quantity ≠ 0)
      ∧ (webhookStep envExit payExit []).result
          = .okExit envExit.orderId posLong.tradingsymbol |posLong.quantity|
      ∧ (webhookStep envExit payExit []).orders
          = [⟨posLong.tradingsymbol, |posLong.quantity|,
              if 0 < posLong.quantity then "SELL" else "BUY"⟩] :=
  (exit_position_matching envExit payExit [] "FINNIFTY"
      (by decide) (by decide) (by decide)).2.1
    posLong (by decide)

end Bridge
